import Mathlib

/-!
Shallow embedding of the `egui-wgpu-x11` overlay program (src/main.rs and
src/x11.rs) and proofs of the specified properties.

The embedding mirrors the source: X11 helpers from `src/x11.rs` are modelled
as functions producing the list of protocol requests they issue (the server
reply they consume — the root window's child list — is taken as an argument),
together with a small server-side semantics for the shape extension; the
wgpu-facing `State` of `src/main.rs` is modelled with explicit state passing,
each operation additionally returning the list of `surface.configure` calls
it performs. Machine integers are `Nat` with an explicit `% 2 ^ 32` where the
source performs wrapping `u32` arithmetic.
-/

namespace EguiWgpuX11

/-! ### X11 protocol model (src/x11.rs) -/

/-- A rectangle, as carried by an XFixes region (x, y, width, height). -/
structure Rect where
  x : Int
  y : Int
  w : Nat
  h : Nat
deriving DecidableEq

/-- The two shape kinds used by `input_passthrough`
(`shape::SK::BOUNDING` and `shape::SK::INPUT`). -/
inductive ShapeKind where
  | bounding
  | input
deriving DecidableEq

/-- Stacking modes of a `ConfigureWindow` request (`xproto::StackMode`). -/
inductive StackMode where
  | above
  | below
  | topIf
  | bottomIf
  | opposite
deriving DecidableEq

/-- A `ConfigureWindow` request as issued through `ConfigureWindowAux`;
the source only ever sets the stack mode, the other aux fields stay unset. -/
structure ConfigureWindowReq where
  window : Nat
  stack_mode : Option StackMode
deriving DecidableEq

/-- The X11 requests issued by the shape-handling code under scrutiny.
`setWindowShapeRegion` mirrors `xfixes::SetWindowShapeRegionRequest`
(dest, dest_kind, x_offset, y_offset, region); region id 0 denotes the
protocol's `None` region. -/
inductive XRequest where
  | createRegion (rid : Nat) (rects : List Rect)
  | setWindowShapeRegion (dest : Nat) (dest_kind : ShapeKind) (x_offset y_offset : Int) (region : Nat)
  | destroyRegion (rid : Nat)
deriving DecidableEq

/-- A window shape on the server: either unset (the default, which renders
and accepts input over the full window rectangle) or an explicit rectangle
list copied from a region at `SetWindowShapeRegion` time. -/
inductive WindowShape where
  | defaultFull
  | rects (rs : List Rect)
deriving DecidableEq

/-- Server-side state relevant to the shape extension: the live region
resources and the overlay window's two shapes. -/
structure ShapeServerState where
  regions : List (Nat × List Rect)
  boundingShape : WindowShape
  inputShape : WindowShape
deriving DecidableEq

/-- Initial server state: no regions, both shapes at their defaults. -/
def ShapeServerState.init : ShapeServerState :=
  { regions := [], boundingShape := .defaultFull, inputShape := .defaultFull }

/-- XFixes/Shape semantics of one request. `SetWindowShapeRegion` with the
`None` region (id 0) reverts the addressed shape to its default; with a live
region it copies that region's rectangles into the shape. `DestroyRegion`
frees the region resource (the window shapes keep their copied contents). -/
def ShapeServerState.apply (st : ShapeServerState) : XRequest → ShapeServerState
  | .createRegion rid rs => { st with regions := (rid, rs) :: st.regions }
  | .setWindowShapeRegion _ kind _ _ region =>
      let shape : WindowShape :=
        if region = 0 then .defaultFull
        else match st.regions.lookup region with
          | some rs => .rects rs
          | none => .defaultFull
      match kind with
      | .bounding => { st with boundingShape := shape }
      | .input => { st with inputShape := shape }
  | .destroyRegion rid => { st with regions := st.regions.filter (fun p => p.fst ≠ rid) }

/-- Run a request trace against the server state. -/
def ShapeServerState.applyAll (st : ShapeServerState) (reqs : List XRequest) : ShapeServerState :=
  List.foldl ShapeServerState.apply st reqs

/-- `input_passthrough` from src/x11.rs, as the request trace it sends:
create an empty region `rid`, set the window's BOUNDING shape with region
`None` (id 0), set its INPUT shape with the empty region, destroy the
region. -/
def input_passthrough (win_id rid : Nat) : List XRequest :=
  [ .createRegion rid [],
    .setWindowShapeRegion win_id .bounding 0 0 0,
    .setWindowShapeRegion win_id .input 0 0 rid,
    .destroyRegion rid ]

/-- `raise_if_not_top` from src/x11.rs, as a function of the `QueryTree`
reply's child list: when the last child is not the overlay window it issues
one `ConfigureWindow` with stack mode ABOVE, otherwise nothing. -/
def raise_if_not_top (tree : List Nat) (win_id : Nat) : List ConfigureWindowReq :=
  if tree.getLast? ≠ some win_id then
    [{ window := win_id, stack_mode := some .above }]
  else []

/-- A visual, keeping the one field the source reads (`visual_id`). -/
structure Visualtype where
  visual_id : Nat
deriving DecidableEq

/-- One entry of a screen's `allowed_depths`. -/
structure Depth where
  depth : Nat
  visuals : List Visualtype
deriving DecidableEq

/-- The screen fields the source reads. -/
structure Screen where
  root : Nat
  root_visual : Nat
  width_in_pixels : Nat
  height_in_pixels : Nat
  allowed_depths : List Depth
deriving DecidableEq

/-- The `CreateWindow` request built by `create_overlay_window`, with the
positional arguments and the `CreateWindowAux` fields the source sets.
`window_class` 1 is `WindowClass::INPUT_OUTPUT`. -/
structure CreateWindowReq where
  depth : Nat
  wid : Nat
  parent : Nat
  x : Int
  y : Int
  width : Nat
  height : Nat
  border_width : Nat
  window_class : Nat
  visual : Nat
  background_pixel : Option Nat
  border_pixel : Option Nat
  override_redirect : Option Nat
  colormap : Option Nat
  event_mask : Option Nat
deriving DecidableEq

/-- `create_overlay_window` from src/x11.rs, restricted to the
`CreateWindow` request it issues. The source finds the first advertised
depth equal to 32 and takes its first visual, unwrapping both (`none` here
models the panic); the colormap and window ids are generated by the
connection and taken as arguments. The aux sets background_pixel 0x00000000,
the colormap, override_redirect 1, border_pixel 1 and a 25-bit all-ones
event mask; the positional border_width argument is 0. -/
def create_overlay_window (screen : Screen) (x y : Int) (width height : Nat)
    (cmap_id win_id : Nat) : Option CreateWindowReq :=
  match (screen.allowed_depths.find? (fun d => d.depth == 32)) with
  | none => none
  | some d =>
    match d.visuals.head? with
    | none => none
    | some v =>
      some { depth := 32
             wid := win_id
             parent := screen.root
             x := x
             y := y
             width := width
             height := height
             border_width := 0
             window_class := 1
             visual := v.visual_id
             background_pixel := some 0x00000000
             border_pixel := some 1
             override_redirect := some 1
             colormap := some cmap_id
             event_mask := some 0x1FFFFFF }

/-! ### Presentation loop model (src/main.rs) -/

/-- `wgpu::TextureUsages` value used by the source. -/
inductive TextureUsages where
  | renderAttachment
deriving DecidableEq

/-- `wgpu::PresentMode` value used by the source. -/
inductive PresentMode where
  | fifo
deriving DecidableEq

/-- `wgpu::CompositeAlphaMode` value used by the source. -/
inductive CompositeAlphaMode where
  | auto
deriving DecidableEq

/-- `wgpu::SurfaceConfiguration` with the fields the source sets; the
texture format is abstracted to its index-0 pick as an opaque code. -/
structure SurfaceConfiguration where
  usage : TextureUsages
  format : Nat
  width : Nat
  height : Nat
  present_mode : PresentMode
  alpha_mode : CompositeAlphaMode
deriving DecidableEq

/-- The surface-relevant fields of `State` (src/main.rs): the stored size
and the configuration last written to `self.config`. GPU handles and egui
state do not affect the claimed properties and carry no data here. -/
structure State where
  config : SurfaceConfiguration
  size : Nat × Nat
deriving DecidableEq

/-- `wgpu::SurfaceError`. -/
inductive SurfaceError where
  | Timeout
  | Outdated
  | Lost
  | OutOfMemory
deriving DecidableEq

/-- `State::new` (src/main.rs lines 38-108), restricted to surface
configuration: builds the config with RENDER_ATTACHMENT usage, the first
supported format, the window's dimensions, FIFO present mode and Auto alpha
mode, and calls `surface.configure` once with it. Returns the state and the
list of configure calls performed. -/
def State.new (format : Nat) (size : Nat × Nat) : State × List SurfaceConfiguration :=
  let config : SurfaceConfiguration :=
    { usage := .renderAttachment
      format := format
      width := size.fst
      height := size.snd
      present_mode := .fifo
      alpha_mode := .auto }
  ({ config := config, size := size }, [config])

/-- `State::resize` (src/main.rs lines 110-117): when both requested
dimensions are positive, store the new size, update the config's width and
height and reconfigure the surface; otherwise do nothing. Returns the new
state and the list of `surface.configure` calls performed. -/
def State.resize (s : State) (new_size : Nat × Nat) : State × List SurfaceConfiguration :=
  if 0 < new_size.fst ∧ 0 < new_size.snd then
    let config := { s.config with width := new_size.fst, height := new_size.snd }
    ({ s with size := new_size, config := config }, [config])
  else (s, [])

/-- Outcome of a call to `State::render`: either the function returns a
value to its caller, or it panics (aborting the process). -/
inductive RenderOutcome where
  | returns (r : Except SurfaceError Unit)
  | panics

/-- `State::render` (src/main.rs lines 119-182) as a function of the result
of `surface.get_current_texture()`: the source immediately `.unwrap()`s that
result, so an acquisition error panics; on success the body runs through and
the only return statement is `Ok(())`. -/
def State.render (acq : Except SurfaceError Unit) : RenderOutcome :=
  match acq with
  | .ok _ => .returns (.ok ())
  | .error _ => .panics

/-- Outcome of one pass through the render/match step of the main loop. -/
inductive IterOutcome where
  | panicked
  | terminated
  | continues (s : State) (calls : List SurfaceConfiguration)

/-- The `match state.render()` step of the main loop (src/main.rs lines
235-245): Ok does nothing; Lost/Outdated calls `state.resize(state.size)`;
OutOfMemory breaks the loop; Timeout logs and continues. A panic inside
`render` aborts the process before any arm runs. -/
def mainLoopRenderStep (s : State) (acq : Except SurfaceError Unit) : IterOutcome :=
  match State.render acq with
  | .panics => .panicked
  | .returns (.ok _) => .continues s []
  | .returns (.error e) =>
    match e with
    | .Lost => let r := State.resize s s.size; .continues r.fst r.snd
    | .Outdated => let r := State.resize s s.size; .continues r.fst r.snd
    | .OutOfMemory => .terminated
    | .Timeout => .continues s []

/-- One iteration's event/stacking step (src/main.rs lines 246-252), as its
effect on the counter `i` and whether `raise_if_not_top` is invoked: the
raise happens iff no event was pending and `i == 0`; the counter update
`i = (i + 1) % STACK_CHECK_DELAY` runs unconditionally afterwards. Returns
(raised, next counter). -/
def mainLoopEventStep (i : Nat) (eventPending : Bool) : Bool × Nat :=
  ((!eventPending) && decide (i = 0), (i + 1) % 30)

/-- The raise-invocation flags of a run of the main loop started with
counter `i`, one flag per iteration, driven by the per-iteration
event-pending flags. -/
def mainLoopRaises (i : Nat) : List Bool → List Bool
  | [] => []
  | ev :: rest =>
    (mainLoopEventStep i ev).fst :: mainLoopRaises (mainLoopEventStep i ev).snd rest

/-- The counter value after a run of the main loop started with counter `i`,
driven by the per-iteration event-pending flags. -/
def mainLoopCounterAfter (i : Nat) (evs : List Bool) : Nat :=
  List.foldl (fun a ev => (mainLoopEventStep a ev).snd) i evs

/-- The window size computed in `main` (src/main.rs lines 226-227):
`screen.width_in_pixels as u32 - 200` and likewise for the height, i.e.
wrapping `u32` subtraction of the 200-pixel margins from the `u16` screen
dimensions. -/
def mainWindowSize (screenW screenH : Nat) : Nat × Nat :=
  ((screenW + 2 ^ 32 - 200) % 2 ^ 32, (screenH + 2 ^ 32 - 200) % 2 ^ 32)

/-! ### Shared concrete inputs for witnesses -/

/-- A concrete `State`: a 3 by 4 configured surface. -/
def sampleState : State :=
  { config := { usage := .renderAttachment
                format := 0
                width := 3
                height := 4
                present_mode := .fifo
                alpha_mode := .auto }
    size := (3, 4) }

/-- A concrete screen advertising a depth-24 and a depth-32 visual. -/
def sampleScreen : Screen :=
  { root := 99
    root_visual := 33
    width_in_pixels := 1920
    height_in_pixels := 1080
    allowed_depths := [ { depth := 24, visuals := [{ visual_id := 33 }] },
                        { depth := 32, visuals := [{ visual_id := 44 }] } ] }

/-! ### Claims -/

/-- C1: the spec requires a Lost/Outdated surface acquisition failure to be
recovered by `state.resize(state.size)` before the next iteration, without
terminating the loop, and the loop's match arms (src/main.rs lines 237-240)
were written to do exactly that; but `State::render` unwraps the
acquisition result (src/main.rs line 120), so a Lost (or Outdated)
acquisition panics and aborts the process before the recovery arm can run. -/
theorem C1_lost_acquisition_panics (s : State) :
    mainLoopRenderStep s (Except.error SurfaceError.Lost) = IterOutcome.panicked ∧
    mainLoopRenderStep s (Except.error SurfaceError.Outdated) = IterOutcome.panicked ∧
    State.render (Except.error SurfaceError.Lost) = RenderOutcome.panics :=
  ⟨rfl, rfl, rfl⟩

/-- C2: whenever `State::render` returns, it returns `Ok(())` — it never
passes a `SurfaceError` to its caller — and consequently one pass through
the loop's `match state.render()` either aborts the process (panic inside
`render`) or takes the `Ok` arm, leaving the state unchanged and issuing no
configure call: the Lost/Outdated, OutOfMemory and Timeout arms are
unreachable. -/
theorem C2_render_returns_only_ok :
    (∀ (acq : Except SurfaceError Unit) (r : Except SurfaceError Unit),
        State.render acq = RenderOutcome.returns r → r = Except.ok ()) ∧
    (∀ (s : State) (acq : Except SurfaceError Unit),
        mainLoopRenderStep s acq = IterOutcome.panicked ∨
          mainLoopRenderStep s acq = IterOutcome.continues s []) := by
  constructor
  · intro acq r h
    cases acq with
    | ok u =>
      cases u
      simp only [State.render, RenderOutcome.returns.injEq] at h
      exact h.symm
    | error e =>
      simp only [State.render] at h
      exact RenderOutcome.noConfusion h
  · intro s acq
    cases acq with
    | ok u => exact Or.inr rfl
    | error e => exact Or.inl rfl

/-- C2 witness: the theorem applied at a successful acquisition. -/
theorem C2_render_returns_only_ok_witness :
    (Except.ok () : Except SurfaceError Unit) = Except.ok () ∧
      (mainLoopRenderStep sampleState (Except.ok ()) = IterOutcome.panicked ∨
        mainLoopRenderStep sampleState (Except.ok ()) = IterOutcome.continues sampleState []) :=
  ⟨C2_render_returns_only_ok.left (Except.ok ()) (Except.ok ()) rfl,
   C2_render_returns_only_ok.right sampleState (Except.ok ())⟩

/-- C4: whenever the root's child list does not end with the overlay window
(the empty list included), `raise_if_not_top` issues exactly one
`ConfigureWindow` request, and that request sets stack mode ABOVE. -/
theorem C4_raise_when_not_top (tree : List Nat) (win_id : Nat)
    (h : tree.getLast? ≠ some win_id) :
    raise_if_not_top tree win_id =
      [{ window := win_id, stack_mode := some StackMode.above }] := by
  simp only [raise_if_not_top, if_pos h]

/-- C4 witness: the empty child list. -/
theorem C4_raise_when_not_top_witness :
    ([] : List Nat).getLast? ≠ some 5 ∧
      raise_if_not_top [] 5 = [{ window := 5, stack_mode := some StackMode.above }] :=
  ⟨by decide, C4_raise_when_not_top [] 5 (by decide)⟩

/-- C5: whenever the root's child list ends with the overlay window,
`raise_if_not_top` issues no request at all. -/
theorem C5_no_raise_when_top (tree : List Nat) (win_id : Nat)
    (h : tree.getLast? = some win_id) :
    raise_if_not_top tree win_id = [] := by
  simp only [raise_if_not_top, ne_eq, h, not_true_eq_false, if_neg]
  simp

/-- C5 witness: a child list ending with the overlay. -/
theorem C5_no_raise_when_top_witness :
    ([2, 5] : List Nat).getLast? = some 5 ∧ raise_if_not_top [2, 5] 5 = [] :=
  ⟨by decide, C5_no_raise_when_top [2, 5] 5 (by decide)⟩

/-- C8: for positive requested dimensions, `State::resize` stores the
requested size, updates the configuration's width and height to it, and
reconfigures the surface exactly once with that configuration. -/
theorem C8_resize_positive (s : State) (w h : Nat) (hw : 0 < w) (hh : 0 < h) :
    (State.resize s (w, h)).fst.size = (w, h) ∧
    (State.resize s (w, h)).fst.config.width = w ∧
    (State.resize s (w, h)).fst.config.height = h ∧
    (State.resize s (w, h)).snd = [(State.resize s (w, h)).fst.config] := by
  have hc : 0 < (w, h).fst ∧ 0 < (w, h).snd := ⟨hw, hh⟩
  simp [State.resize, hc]

/-- C8 witness: resize the sample state to 5 by 6. -/
theorem C8_resize_positive_witness :
    (0 : Nat) < 5 ∧
      ((State.resize sampleState (5, 6)).fst.size = (5, 6) ∧
        (State.resize sampleState (5, 6)).fst.config.width = 5 ∧
        (State.resize sampleState (5, 6)).fst.config.height = 6 ∧
        (State.resize sampleState (5, 6)).snd = [(State.resize sampleState (5, 6)).fst.config]) :=
  ⟨by decide, C8_resize_positive sampleState 5 6 (by decide) (by decide)⟩

/-- C9: for a zero width or height, `State::resize` is a no-op: the state
(stored size and whole configuration) is returned unchanged and no
configure call is issued. -/
theorem C9_resize_zero_noop (s : State) (w h : Nat) (hz : w = 0 ∨ h = 0) :
    State.resize s (w, h) = (s, []) := by
  have hc : ¬ (0 < (w, h).fst ∧ 0 < (w, h).snd) := by
    rcases hz with h1 | h1 <;> simp [h1]
  simp [State.resize, hc]

/-- C9 witness: a zero-width request on the sample state. -/
theorem C9_resize_zero_noop_witness :
    ((0 : Nat) = 0 ∨ (7 : Nat) = 0) ∧ State.resize sampleState (0, 7) = (sampleState, []) :=
  ⟨Or.inl rfl, C9_resize_zero_noop sampleState 0 7 (Or.inl rfl)⟩

/-- C3: running the `input_passthrough` trace against the shape server
leaves the bounding shape at its default (the full window rectangle) and
the input shape empty; the zero-area region is only ever passed to a
`SetWindowShapeRegion` request of kind INPUT, never of kind BOUNDING; and
the region resource is gone (destroyed) once the trace is done. -/
theorem C3_input_passthrough_shapes (win_id rid : Nat) (hrid : rid ≠ 0) :
    ((ShapeServerState.init.applyAll (input_passthrough win_id rid)).boundingShape
        = WindowShape.defaultFull ∧
      (ShapeServerState.init.applyAll (input_passthrough win_id rid)).inputShape
        = WindowShape.rects [] ∧
      ((ShapeServerState.init.applyAll (input_passthrough win_id rid)).regions.lookup rid
        = none)) ∧
    (∀ dest kind x_offset y_offset,
        XRequest.setWindowShapeRegion dest kind x_offset y_offset rid
            ∈ input_passthrough win_id rid →
          kind = ShapeKind.input) := by
  constructor
  · simp [input_passthrough, ShapeServerState.applyAll, ShapeServerState.apply,
      ShapeServerState.init, List.lookup, hrid]
  · intro dest kind x_offset y_offset hmem
    simp only [input_passthrough, List.mem_cons, List.mem_singleton] at hmem
    rcases hmem with h1 | h2 | h3 | h4 | h5
    · exact XRequest.noConfusion h1
    · exact absurd (XRequest.setWindowShapeRegion.inj h2).2.2.2.2 hrid
    · exact (XRequest.setWindowShapeRegion.inj h3).2.1
    · exact XRequest.noConfusion h4
    · exact absurd h5 (by simp)

/-- C3 witness: window 7, region id 1. -/
theorem C3_input_passthrough_shapes_witness :
    (1 : Nat) ≠ 0 ∧
      (ShapeServerState.init.applyAll (input_passthrough 7 1)).boundingShape
        = WindowShape.defaultFull ∧
      (ShapeServerState.init.applyAll (input_passthrough 7 1)).inputShape
        = WindowShape.rects [] ∧
      (ShapeServerState.init.applyAll (input_passthrough 7 1)).regions.lookup 1 = none :=
  ⟨by decide, (C3_input_passthrough_shapes 7 1 (by decide)).1.1,
    (C3_input_passthrough_shapes 7 1 (by decide)).1.2.1,
    (C3_input_passthrough_shapes 7 1 (by decide)).1.2.2⟩

/-- Length of the raise-flag list equals the number of iterations. -/
theorem mainLoopRaises_length (i : Nat) (evs : List Bool) :
    (mainLoopRaises i evs).length = evs.length := by
  induction evs generalizing i with
  | nil => rfl
  | cons ev rest ih => simp [mainLoopRaises, ih]

/-- The raise flag of iteration `k` (0-based) of a run started with counter
`i < 30`: raised iff no event was pending there and `(i + k) % 30 = 0`. -/
theorem mainLoopRaises_getD (evs : List Bool) (i k : Nat) (hi : i < 30)
    (hk : k < evs.length) :
    (mainLoopRaises i evs).getD k false =
      ((!evs.getD k true) && decide ((i + k) % 30 = 0)) := by
  induction evs generalizing i k with
  | nil => exact absurd hk (by simp)
  | cons ev rest ih =>
    cases k with
    | zero =>
      simp only [mainLoopRaises, mainLoopEventStep, List.getD_cons_zero, Nat.add_zero]
      congr 1
      rw [decide_eq_decide]
      omega
    | succ k2 =>
      simp only [mainLoopRaises, List.getD_cons_succ]
      have hk2 : k2 < rest.length := by
        simpa using Nat.lt_of_succ_lt_succ hk
      have hmod : ((mainLoopEventStep i ev).snd + k2) % 30 = (i + (k2 + 1)) % 30 := by
        simp only [mainLoopEventStep]
        omega
      rw [ih ((mainLoopEventStep i ev).snd) k2 (by simp [mainLoopEventStep]; omega) hk2, hmod]

/-- The counter after a run started with `i < 30` is the iteration count
added to `i`, mod 30 — independent of which iterations had events. -/
theorem mainLoopCounterAfter_eq (i : Nat) (evs : List Bool) (hi : i < 30) :
    mainLoopCounterAfter i evs = (i + evs.length) % 30 := by
  induction evs generalizing i with
  | nil => simp [mainLoopCounterAfter, Nat.mod_eq_of_lt hi]
  | cons ev rest ih =>
    have hstep : mainLoopCounterAfter i (ev :: rest)
        = mainLoopCounterAfter ((i + 1) % 30) rest := rfl
    rw [hstep, ih ((i + 1) % 30) (Nat.mod_lt _ (by omega))]
    simp only [List.length_cons]
    omega

/-- C6 counterexample: with an event pending (and counter 1, its value on
the first iteration), the counter still moves to 2 — it is incremented on
every iteration, not only on iterations without a pending event. -/
theorem C6_counter_increments_on_event :
    (mainLoopEventStep 1 true).snd = 2 ∧ ¬ (mainLoopEventStep 1 true).snd = 1 := by decide

/-- C6 as amended: in a run of the main loop started with counter 1 (its
initial value), iteration `k` (0-based) invokes `raise_if_not_top` exactly
when no event was pending on it and `k + 1` is divisible by 30 — every 30th
iteration overall, never with a pending event — while the counter advances
by one, mod 30, on every iteration regardless of the event flags. -/
theorem C6_raise_every_30th_iteration (evs : List Bool) (k : Nat) (hk : k < evs.length) :
    (mainLoopRaises 1 evs).getD k false
        = ((!evs.getD k true) && decide ((1 + k) % 30 = 0)) ∧
      mainLoopCounterAfter 1 evs = (1 + evs.length) % 30 :=
  ⟨mainLoopRaises_getD evs 1 k (by omega) hk, mainLoopCounterAfter_eq 1 evs (by omega)⟩

/-- C6 witness: thirty event-free iterations; the 30th (index 29) raises. -/
theorem C6_raise_every_30th_iteration_witness :
    29 < (List.replicate 30 false).length ∧
      ((mainLoopRaises 1 (List.replicate 30 false)).getD 29 false
          = ((!(List.replicate 30 false).getD 29 true) && decide ((1 + 29) % 30 = 0)) ∧
        mainLoopCounterAfter 1 (List.replicate 30 false)
          = (1 + (List.replicate 30 false).length) % 30) :=
  ⟨by decide, C6_raise_every_30th_iteration (List.replicate 30 false) 29 (by decide)⟩

/-- The request `create_overlay_window` builds on `sampleScreen` at
(100, 100), 1720 by 880, colormap id 5, window id 6. -/
def sampleOverlayReq : CreateWindowReq :=
  { depth := 32
    wid := 6
    parent := 99
    x := 100
    y := 100
    width := 1720
    height := 880
    border_width := 0
    window_class := 1
    visual := 44
    background_pixel := some 0
    border_pixel := some 1
    override_redirect := some 1
    colormap := some 5
    event_mask := some 0x1FFFFFF }

/-- C7 counterexample: on a concrete screen the created window's border
width is 0, not 1 — the aux value 1 is the border *pixel* (a color), so the
claim's "1-pixel border" conjunct fails. -/
theorem C7_border_width_is_zero :
    (create_overlay_window sampleScreen 100 100 1720 880 5 6).map
        (fun r => r.border_width) = some 0 ∧
      ¬ (create_overlay_window sampleScreen 100 100 1720 880 5 6).map
          (fun r => r.border_width) = some 1 := by decide

/-- C7 as amended: whenever `create_overlay_window` issues its
`CreateWindow` request, the request has a fully transparent background
pixel (0x00000000), override_redirect enabled, border width zero with the
border-pixel attribute set to 1, the all-categories event mask (all 25
event bits), depth 32, and its visual is the first visual of the first
advertised depth-32 entry of the screen. -/
theorem C7_overlay_window_attributes (screen : Screen) (x y : Int)
    (w h cmap_id win_id : Nat) (req : CreateWindowReq)
    (hreq : create_overlay_window screen x y w h cmap_id win_id = some req) :
    req.background_pixel = some 0 ∧
    req.override_redirect = some 1 ∧
    req.border_width = 0 ∧
    req.border_pixel = some 1 ∧
    req.event_mask = some (2 ^ 25 - 1) ∧
    req.depth = 32 ∧
    ∃ d, screen.allowed_depths.find? (fun d => d.depth == 32) = some d ∧
      d.depth = 32 ∧ d.visuals.head?.map Visualtype.visual_id = some req.visual := by
  unfold create_overlay_window at hreq
  split at hreq
  · exact Option.noConfusion hreq
  · split at hreq
    · exact Option.noConfusion hreq
    · rename_i oDepth d hfind oVis v hhead
      have hd32 : d.depth = 32 := by
        have := List.find?_some hfind
        simpa using this
      cases Option.some.inj hreq
      refine ⟨rfl, rfl, rfl, rfl, by norm_num, rfl, d, hfind, hd32, ?_⟩
      rw [hhead]
      rfl

/-- C7 witness: the concrete screen, window geometry and ids. -/
theorem C7_overlay_window_attributes_witness :
    create_overlay_window sampleScreen 100 100 1720 880 5 6 = some sampleOverlayReq ∧
      (sampleOverlayReq.background_pixel = some 0 ∧
        sampleOverlayReq.override_redirect = some 1 ∧
        sampleOverlayReq.border_width = 0 ∧
        sampleOverlayReq.border_pixel = some 1 ∧
        sampleOverlayReq.event_mask = some (2 ^ 25 - 1) ∧
        sampleOverlayReq.depth = 32) :=
  ⟨by decide,
    ⟨(C7_overlay_window_attributes sampleScreen 100 100 1720 880 5 6 sampleOverlayReq
        (by decide)).1,
      (C7_overlay_window_attributes sampleScreen 100 100 1720 880 5 6 sampleOverlayReq
        (by decide)).2.1,
      (C7_overlay_window_attributes sampleScreen 100 100 1720 880 5 6 sampleOverlayReq
        (by decide)).2.2.1,
      (C7_overlay_window_attributes sampleScreen 100 100 1720 880 5 6 sampleOverlayReq
        (by decide)).2.2.2.1,
      (C7_overlay_window_attributes sampleScreen 100 100 1720 880 5 6 sampleOverlayReq
        (by decide)).2.2.2.2.1,
      (C7_overlay_window_attributes sampleScreen 100 100 1720 880 5 6 sampleOverlayReq
        (by decide)).2.2.2.2.2.1⟩⟩

/-- A surface configuration with positive width and height. -/
def configuredPositive (c : SurfaceConfiguration) : Bool :=
  decide (0 < c.width) && decide (0 < c.height)

/-- C10 counterexample: for a screen exactly 200 pixels wide the window
width computed in `main` is 0, and `State::new` configures the surface with
that zero width — the claimed invariant fails on this screen dimension. -/
theorem C10_zero_width_configured :
    (mainWindowSize 200 1080).fst = 0 ∧
      (State.new 0 (mainWindowSize 200 1080)).snd.map (fun c => c.width) = [0] := by decide

/-- C10 as amended: every configure call keeps width and height positive,
provided the screen dimensions (u16 values) are not exactly 200 on either
axis: `State::new` on the window size `main` computes from such a screen
configures positively, and `State::resize` preserves a positive
configuration (its configure calls are positive and the stored
configuration stays positive). -/
theorem C10_configured_dimensions_positive :
    (∀ format sw sh, sw < 2 ^ 16 → sh < 2 ^ 16 → sw ≠ 200 → sh ≠ 200 →
      (State.new format (mainWindowSize sw sh)).snd.all configuredPositive = true ∧
        configuredPositive (State.new format (mainWindowSize sw sh)).fst.config = true) ∧
    (∀ (s : State) (new_size : Nat × Nat), configuredPositive s.config = true →
      (State.resize s new_size).snd.all configuredPositive = true ∧
        configuredPositive (State.resize s new_size).fst.config = true) := by
  constructor
  · intro format sw sh hsw hsh hsw200 hsh200
    have h16 : (2 : Nat) ^ 16 = 65536 := by norm_num
    rw [h16] at hsw hsh
    constructor
    · simp [State.new, mainWindowSize, configuredPositive]
      omega
    · simp [State.new, mainWindowSize, configuredPositive]
      omega
  · intro s new_size hpos
    simp only [configuredPositive, Bool.and_eq_true, decide_eq_true_eq] at hpos
    by_cases hc : 0 < new_size.fst ∧ 0 < new_size.snd
    · constructor
      · simp [State.resize, hc, configuredPositive, hc.1, hc.2]
      · simp [State.resize, hc, configuredPositive, hc.1, hc.2]
    · constructor
      · simp [State.resize, hc]
      · simp [State.resize, hc, configuredPositive, hpos.1, hpos.2]

/-- C10 witness: a 1920 by 1080 screen, and a zero-size resize of the
sample state. -/
theorem C10_configured_dimensions_positive_witness :
    ((1920 : Nat) < 2 ^ 16 ∧
      ((State.new 0 (mainWindowSize 1920 1080)).snd.all configuredPositive = true ∧
        configuredPositive (State.new 0 (mainWindowSize 1920 1080)).fst.config = true)) ∧
    (configuredPositive sampleState.config = true ∧
      ((State.resize sampleState (0, 0)).snd.all configuredPositive = true ∧
        configuredPositive (State.resize sampleState (0, 0)).fst.config = true)) :=
  ⟨⟨by norm_num,
      C10_configured_dimensions_positive.left 0 1920 1080 (by norm_num) (by norm_num)
        (by decide) (by decide)⟩,
    ⟨by decide, C10_configured_dimensions_positive.right sampleState (0, 0) (by decide)⟩⟩

end EguiWgpuX11
